import Mathlib

/-!
Shallow embedding of the projection-and-scoring engine of the Agri_API
repository (src/utils/calculations.js and the social-impact route in
src/unnamed/part_003), together with theorems settling the frozen claims.

Modelling conventions:
* JavaScript numbers are modelled in exact arithmetic over `ℚ`; where a
  claim hinges on IEEE-754 special values (division by zero producing
  Infinity, `undefined` arithmetic producing NaN), the type `JSNum`
  tracks those special values explicitly.
* `Math.exp` is modelled by an abstract parameter `E : ℚ → ℚ`; theorems
  that need properties of the exponential (positivity, strict
  monotonicity, `E 0 = 1`) take them as hypotheses, and a concrete
  computable function `EExample` satisfying them instantiates witnesses.
* JavaScript objects used as finite maps (`roof_division`,
  `full_savings`, `improvement_years`) are association lists
  `List (String × ℚ)`; reading an absent key yields `undefined` in JS,
  which the `JSNum` economics model maps to NaN, while the exact `ℚ`
  curve model reads it as 0 (the claims about the curves only concern
  configurations where every key that is read is present).
* Thrown exceptions are modelled with `Except String`.
-/

/-- A JavaScript (IEEE-754 double) number in exact arithmetic: either a
finite rational, positive or negative infinity, or NaN.  Negative zero is
identified with zero; rounding is ignored (exact arithmetic). -/
inductive JSNum where
  | num : ℚ → JSNum
  | inf : JSNum
  | ninf : JSNum
  | nan : JSNum
deriving DecidableEq, Repr

/-- IEEE-754 addition on `JSNum` (exact on finite values). -/
def jadd : JSNum → JSNum → JSNum
  | JSNum.nan, _ => JSNum.nan
  | _, JSNum.nan => JSNum.nan
  | JSNum.inf, JSNum.ninf => JSNum.nan
  | JSNum.ninf, JSNum.inf => JSNum.nan
  | JSNum.inf, _ => JSNum.inf
  | _, JSNum.inf => JSNum.inf
  | JSNum.ninf, _ => JSNum.ninf
  | _, JSNum.ninf => JSNum.ninf
  | JSNum.num a, JSNum.num b => JSNum.num (a + b)

/-- IEEE-754 negation on `JSNum`. -/
def jneg : JSNum → JSNum
  | JSNum.num a => JSNum.num (-a)
  | JSNum.inf => JSNum.ninf
  | JSNum.ninf => JSNum.inf
  | JSNum.nan => JSNum.nan

/-- IEEE-754 subtraction on `JSNum`. -/
def jsub (a b : JSNum) : JSNum := jadd a (jneg b)

/-- IEEE-754 multiplication on `JSNum` (exact on finite values);
`±∞ × 0 = NaN`. -/
def jmul : JSNum → JSNum → JSNum
  | JSNum.nan, _ => JSNum.nan
  | _, JSNum.nan => JSNum.nan
  | JSNum.inf, JSNum.inf => JSNum.inf
  | JSNum.inf, JSNum.ninf => JSNum.ninf
  | JSNum.ninf, JSNum.inf => JSNum.ninf
  | JSNum.ninf, JSNum.ninf => JSNum.inf
  | JSNum.inf, JSNum.num b =>
      if 0 < b then JSNum.inf else if b < 0 then JSNum.ninf else JSNum.nan
  | JSNum.num a, JSNum.inf =>
      if 0 < a then JSNum.inf else if a < 0 then JSNum.ninf else JSNum.nan
  | JSNum.ninf, JSNum.num b =>
      if 0 < b then JSNum.ninf else if b < 0 then JSNum.inf else JSNum.nan
  | JSNum.num a, JSNum.ninf =>
      if 0 < a then JSNum.ninf else if a < 0 then JSNum.inf else JSNum.nan
  | JSNum.num a, JSNum.num b => JSNum.num (a * b)

/-- IEEE-754 division on `JSNum`; a positive finite value divided by
(positive) zero is `+∞`, `0 / 0` is NaN.  (JavaScript number literals
are positive zeros, so the negative-zero divisor case does not arise in
the embedded code.) -/
def jdiv : JSNum → JSNum → JSNum
  | JSNum.nan, _ => JSNum.nan
  | _, JSNum.nan => JSNum.nan
  | JSNum.inf, JSNum.inf => JSNum.nan
  | JSNum.inf, JSNum.ninf => JSNum.nan
  | JSNum.ninf, JSNum.inf => JSNum.nan
  | JSNum.ninf, JSNum.ninf => JSNum.nan
  | JSNum.inf, JSNum.num b => if b < 0 then JSNum.ninf else JSNum.inf
  | JSNum.ninf, JSNum.num b => if b < 0 then JSNum.inf else JSNum.ninf
  | JSNum.num _, JSNum.inf => JSNum.num 0
  | JSNum.num _, JSNum.ninf => JSNum.num 0
  | JSNum.num a, JSNum.num b =>
      if b = 0 then
        if 0 < a then JSNum.inf else if a < 0 then JSNum.ninf else JSNum.nan
      else JSNum.num (a / b)

/-- Property read on a JS object modelled as an association list: the
first binding of the key, if any. -/
def alookup {β : Type} : List (String × β) → String → Option β
  | [], _ => none
  | kv :: rest, k => if k = kv.1 then some kv.2 else alookup rest k

/-- The value read from a JS object at a key: an absent key yields
`undefined`, which behaves as NaN under arithmetic (`ToNumber`). -/
def jsRead (o : List (String × ℚ)) (k : String) : JSNum :=
  match alookup o k with
  | some v => JSNum.num v
  | none => JSNum.nan

/-- The parameters of `performCalculations`
(src/utils/calculations.js, lines 10-38), after destructuring with
defaults.  `points` is a natural number (`new Array(n)` requires a
non-negative integer length). -/
structure EngineParams where
  roof_area : ℚ
  GWP_roof : ℚ
  decline_rate : ℚ
  roof_division : List (String × ℚ)
  full_savings : List (String × ℚ)
  improvement_years : List (String × ℚ)
  years_to_calculate : ℚ
  points : ℕ
  efficiency_degradation : ℚ
  climate_zone : String

/-- The climate factor lookup `climateFactors[climate_zone] || 1.0`
(src/utils/calculations.js, lines 41-49).  None of the five factors is
zero or falsy, so `|| 1.0` fires exactly on unrecognized zones. -/
def climateFactorOf (z : String) : ℚ :=
  if z = "temperate" then 1.0
  else if z = "tropical" then 1.2
  else if z = "arid" then 0.9
  else if z = "continental" then 1.1
  else if z = "polar" then 0.8
  else 1.0

/-- Sum of the values of `roof_division`
(`Object.values(roof_division).reduce((sum, val) => sum + val, 0)`,
src/utils/calculations.js, line 59). -/
def divisionSum (division : List (String × ℚ)) : ℚ :=
  (division.map Prod.snd).foldl (fun s v => s + v) 0

/-- The input-validation prefix of `performCalculations`
(src/utils/calculations.js, lines 52-62): the first failing check's
message, or `none` when every check passes.  The checks run before any
timeline value is computed. -/
def validateParams (p : EngineParams) : Option String :=
  if p.roof_area ≤ 0 then some "Roof area must be positive"
  else if p.GWP_roof ≤ 0 then some "GWP_roof must be positive"
  else if p.decline_rate < 0 ∨ 1 ≤ p.decline_rate then
    some "Decline rate must be between 0 and 1"
  else if p.years_to_calculate ≤ 0 then some "Years to calculate must be positive"
  else if (p.points : ℚ) ≤ 0 then some "Points must be positive"
  else if ¬ |divisionSum p.roof_division - 100| ≤ 0.01 then
    some "Roof division percentages must sum to 100%"
  else none

/-- `linspace(start, end, n)` (src/utils/calculations.js, lines
489-496) in exact rational arithmetic: `result[i] = start + step * i`
with `step = (end − start)/(n − 1)`.  In `ℚ` the division by zero at
`n = 1` reads as 0; the IEEE-faithful version `linspaceJS` below tracks
the Infinity/NaN this produces in JavaScript (the exact version is only
used where that case is immaterial). -/
def linspaceQ (start fin : ℚ) (n : ℕ) : List ℚ :=
  (List.range n).map (fun i : ℕ => start + (fin - start) / ((n : ℚ) - 1) * (i : ℚ))

/-- `linspace(start, end, n)` with IEEE-754 special values tracked:
at `n = 1` the step is `(end − start)/0 = ±∞` and the single entry is
`start + step * 0 = NaN`. -/
def linspaceJS (start fin : JSNum) (n : ℕ) : List JSNum :=
  (List.range n).map (fun i : ℕ =>
    jadd start (jmul (jdiv (jsub fin start) (JSNum.num ((n : ℚ) - 1))) (JSNum.num (i : ℚ))))

/-- The `annual_savings` object (src/utils/calculations.js, lines
68-71): for each key of `roof_division`,
`full_savings[key] * (roof_division[key] / 100)`.  A key of
`roof_division` absent from `full_savings` reads `undefined`, whose
product is NaN. -/
def annualSavingsJS (division fullSavings : List (String × ℚ)) : List (String × JSNum) :=
  division.map (fun kv => (kv.1, jmul (jsRead fullSavings kv.1) (JSNum.num (kv.2 / 100))))

/-- `total_annual_savings = Object.values(annual_savings).reduce((sum,
val) => sum + val, 0)` (src/utils/calculations.js, line 137). -/
def totalAnnualSavingsJS (division fullSavings : List (String × ℚ)) : JSNum :=
  ((annualSavingsJS division fullSavings).map Prod.snd).foldl jadd (JSNum.num 0)

/-- Exact-arithmetic reading of `annual_savings[k]`
(src/utils/calculations.js, line 70), used by the exact improved-curve
model inside `calcResult`.  CAUTION: where the source's
`annual_savings[key]` is `undefined * number = NaN` (key absent from
`full_savings` or from `roof_division`), this reading collapses the
value to 0.  The IEEE-faithful recurrence is `co2WithImprovementsJS`
below, which propagates the NaN; the two agree (pointwise as
`JSNum.num`) exactly when every improvement key reads a numeric value
(`co2WithImprovementsJS_bridge`). -/
def annualSavingsQ (division fullSavings : List (String × ℚ)) (k : String) : ℚ :=
  ((alookup fullSavings k).getD 0) * (((alookup division k).getD 0) / 100)

/-- The cost-factor lookup `cost_factors[improvement] || 100` of
`calculateEstimatedCost` (src/utils/calculations.js, lines 390-400). -/
def costFactorOf (k : String) : ℚ :=
  if k = "Green Areas" then 120
  else if k = "Solar Power" then 350
  else if k = "Water Management" then 80
  else if k = "Social Impact" then 150
  else 100

/-- `calculateEstimatedCost(roof_area, roof_division)`
(src/utils/calculations.js, lines 388-405): for every key of
`roof_division`, the area share times its cost factor, accumulated. -/
def calculateEstimatedCost (roof_area : ℚ) (division : List (String × ℚ)) : ℚ :=
  division.foldl (fun acc kv => acc + roof_area * (kv.2 / 100) * costFactorOf kv.1) 0

/-- One step of the improved-curve recurrence
(src/utils/calculations.js, lines 87-107), producing `co2[i]` from
`co2[i-1]` and `year = years_smooth[i]`: one factor of natural decay,
then for every improvement already started, subtraction of its
efficiency-degraded savings share, then the floor at zero. -/
def improveStep (E : ℚ → ℚ) (rate climate degr points : ℚ)
    (sav : String → ℚ) (impYears : List (String × ℚ)) (year prev : ℚ) : ℚ :=
  max 0 ((impYears.foldl (fun acc kv =>
    if kv.2 ≤ year then
      acc - (sav kv.1 * max 0 (1 - degr * (year - kv.2))) / points * climate
    else acc) (prev * E (-(rate * climate)))))

/-- The loop of src/utils/calculations.js lines 87-108, written as a
recursion carrying the previous sample: consumes the tail of the year
grid (the loop starts at index 1). -/
def co2Go (step : ℚ → ℚ → ℚ) : ℚ → List ℚ → List ℚ
  | _, [] => []
  | prev, y :: ys => step y prev :: co2Go step (step y prev) ys

/-- The `co2_with_improvements` array (src/utils/calculations.js,
lines 83-108): index 0 holds `initial_co2`, and each later index is one
`improveStep` from its predecessor.  The value of the year grid at
index 0 is never read (the JS loop starts at `i = 1`). -/
def co2WithImprovements (E : ℚ → ℚ) (rate climate degr points : ℚ)
    (sav : String → ℚ) (impYears : List (String × ℚ))
    (years : List ℚ) (initial : ℚ) : List ℚ :=
  match years with
  | [] => []
  | _ :: rest => initial :: co2Go (improveStep E rate climate degr points sav impYears) initial rest

/-- The `co2_natural_decline` array (src/utils/calculations.js, lines
78-80): `initial_co2 * exp(-decline_rate * year * climate_factor)` at
every grid year. -/
def co2NaturalDecline (E : ℚ → ℚ) (initial rate climate : ℚ) (years : List ℚ) : List ℚ :=
  years.map (fun y => initial * E (-(rate * y * climate)))

/-- `Math.max(0, x)` (src/utils/calculations.js, line 107) on a JS
number: `Math.max(0, NaN)` is NaN, `Math.max(0, -Infinity)` is 0. -/
def jmax0 : JSNum → JSNum
  | JSNum.num x => JSNum.num (max 0 x)
  | JSNum.inf => JSNum.inf
  | JSNum.ninf => JSNum.num 0
  | JSNum.nan => JSNum.nan

/-- The JavaScript comparison `x >= 0`: false for NaN. -/
def jsGe0 : JSNum → Bool
  | JSNum.num x => decide (0 ≤ x)
  | JSNum.inf => true
  | JSNum.ninf => false
  | JSNum.nan => false

/-- Property read on a JS object whose values are already JS numbers:
an absent key reads `undefined`, which behaves as NaN under the
arithmetic it is fed into here. -/
def jsReadN (o : List (String × JSNum)) (k : String) : JSNum :=
  (alookup o k).getD JSNum.nan

/-- One step of the improved-curve recurrence
(src/utils/calculations.js, lines 87-107) with IEEE special values
tracked: identical in shape to `improveStep`, but
`annual_savings[improvement]` is read from the actual `annual_savings`
object, so a missing key contributes NaN, and the final
`Math.max(0, ·)` maps NaN to NaN. -/
def improveStepJS (E : ℚ → ℚ) (rate climate degr points : ℚ)
    (sav : List (String × JSNum)) (impYears : List (String × ℚ))
    (year : ℚ) (prev : JSNum) : JSNum :=
  jmax0 (impYears.foldl (fun acc kv =>
    if kv.2 ≤ year then
      jsub acc (jmul (jdiv (jmul (jsReadN sav kv.1)
        (JSNum.num (max 0 (1 - degr * (year - kv.2))))) (JSNum.num points))
        (JSNum.num climate))
    else acc) (jmul prev (JSNum.num (E (-(rate * climate))))))

/-- The loop of src/utils/calculations.js lines 87-108 over JS
numbers, recursion carrying the previous sample. -/
def co2GoJS (step : ℚ → JSNum → JSNum) : JSNum → List ℚ → List JSNum
  | _, [] => []
  | prev, y :: ys => step y prev :: co2GoJS step (step y prev) ys

/-- The `co2_with_improvements` array (src/utils/calculations.js,
lines 83-108) with IEEE special values tracked: the faithful reading of
the recurrence, under which a division key missing from `full_savings`
(or an improvement key missing from `roof_division`) contaminates every
later sample with NaN. -/
def co2WithImprovementsJS (E : ℚ → ℚ) (rate climate degr points : ℚ)
    (division fullSavings : List (String × ℚ)) (impYears : List (String × ℚ))
    (years : List ℚ) (initial : ℚ) : List JSNum :=
  match years with
  | [] => []
  | _ :: rest => JSNum.num initial ::
      co2GoJS (improveStepJS E rate climate degr points
        (annualSavingsJS division fullSavings) impYears) (JSNum.num initial) rest

/-- The scan loop of src/utils/calculations.js lines 111-117 (and
119-125): the index of the first sample `<= 0`, or `none` in place of
the sentinel `-1`. -/
def firstLeZeroIdx : List ℚ → Option ℕ
  | [] => none
  | x :: xs => if x ≤ 0 then some 0 else (firstLeZeroIdx xs).map (fun i => i + 1)

/-- The reported neutrality year (src/utils/calculations.js, lines
127-128): `neutral_index > 0 ? years_smooth[neutral_index] : null`.
Both the not-found sentinel `-1` and a crossing at index 0 report
`null`. -/
def neutralityYear (curve years : List ℚ) : Option ℚ :=
  match firstLeZeroIdx curve with
  | some i => if 0 < i then some (years.getD i 0) else none
  | none => none

/-- The slice of the result object of `performCalculations`
(src/utils/calculations.js, lines 148-193) that the claims concern.
The `configuration` echo of the raw inputs and the human-readable
`summary` strings are omitted as inert; economics values that JavaScript
can drive to Infinity/NaN are carried as `JSNum`. -/
structure CalcResult where
  years : List ℚ
  co2_with_improvements : List ℚ
  co2_natural_decline : List ℚ
  neutrality_improved : Option ℚ
  neutrality_natural : Option ℚ
  total_annual_savings : JSNum
  estimated_cost : ℚ
  simple_payback_years : JSNum
deriving DecidableEq, Repr

/-- The computation performed by `performCalculations` after its
validation prefix has passed (src/utils/calculations.js, lines 64-193),
parametrised by the exponential model `E` and the already-computed
climate factor (`const climate_factor = ...`, line 49, which the source
computes before validating). -/
def calcResultCore (E : ℚ → ℚ) (climate : ℚ) (p : EngineParams) : CalcResult :=
  let initial := p.GWP_roof * p.roof_area
  let yrs := linspaceQ 0 p.years_to_calculate p.points
  let improved := co2WithImprovements E p.decline_rate climate p.efficiency_degradation
    (p.points : ℚ) (annualSavingsQ p.roof_division p.full_savings) p.improvement_years yrs initial
  let natural := co2NaturalDecline E initial p.decline_rate climate yrs
  let totalJS := totalAnnualSavingsJS p.roof_division p.full_savings
  let cost := calculateEstimatedCost p.roof_area p.roof_division
  { years := yrs
    co2_with_improvements := improved
    co2_natural_decline := natural
    neutrality_improved := neutralityYear improved yrs
    neutrality_natural := neutralityYear natural yrs
    total_annual_savings := totalJS
    estimated_cost := cost
    simple_payback_years := jdiv (JSNum.num cost) totalJS }

/-- The full post-validation computation of `performCalculations` with
the climate factor read from the configured zone. -/
def calcResult (E : ℚ → ℚ) (p : EngineParams) : CalcResult :=
  calcResultCore E (climateFactorOf p.climate_zone) p

/-- `performCalculations` (src/utils/calculations.js, lines 10-194):
the validation prefix throws (modelled as `Except.error`) before any
timeline value is computed; otherwise the full result is produced. -/
def performCalculations (E : ℚ → ℚ) (p : EngineParams) : Except String CalcResult :=
  match validateParams p with
  | some msg => Except.error msg
  | none => Except.ok (calcResult E p)

/-- `getSustainabilityRating` (src/utils/calculations.js, lines
472-480): the 7-tier scale. -/
def getSustainabilityRating (score : ℚ) : String :=
  if 90 ≤ score then "Outstanding"
  else if 80 ≤ score then "Excellent"
  else if 70 ≤ score then "Very Good"
  else if 60 ≤ score then "Good"
  else if 50 ≤ score then "Satisfactory"
  else if 40 ≤ score then "Acceptable"
  else "Needs Improvement"

/-- `getSdgAlignmentRating` (src/unnamed/part_003, lines 343-349): the
5-tier scale. -/
def getSdgAlignmentRating (score : ℚ) : String :=
  if 90 ≤ score then "Exceptional"
  else if 70 ≤ score then "Strong"
  else if 50 ≤ score then "Good"
  else if 30 ≤ score then "Moderate"
  else "Limited"

/-- The combined sustainability score of `performEnhancedCalculations`
(src/utils/calculations.js, lines 306-311). -/
def sustainabilityScore (total_annual_co2_reduction initial_co2
    social_impact_score health_impact_score sdg_alignment_score : ℚ) : ℚ :=
  (total_annual_co2_reduction / (initial_co2 * 0.1)) * 0.4 +
    social_impact_score * 0.3 + health_impact_score * 0.2 + sdg_alignment_score * 0.1

/-- The `sustainability` block of the enhanced pipeline's result
(src/utils/calculations.js, lines 357-360): the score together with the
rating the pipeline attaches to it via `getSustainabilityRating`. -/
def enhancedSustainability (total_annual_co2_reduction initial_co2
    social_impact_score health_impact_score sdg_alignment_score : ℚ) : ℚ × String :=
  let score := sustainabilityScore total_annual_co2_reduction initial_co2
    social_impact_score health_impact_score sdg_alignment_score
  (score, getSustainabilityRating score)

/-- The SDG alignment score `Math.min(100, (sdg_focus.length / 17) *
100)` (src/unnamed/part_003, line 154). -/
def sdgAlignmentScore (sdgCount : ℕ) : ℚ :=
  min 100 (((sdgCount : ℚ) / 17) * 100)

/-- The `sdg_alignment` block of the standalone SDG report
(src/unnamed/part_003, lines 169-170): the score together with the
rating the report attaches to it via `getSdgAlignmentRating`. -/
def sdgReportAlignment (sdgCount : ℕ) : ℚ × String :=
  let score := sdgAlignmentScore sdgCount
  (score, getSdgAlignmentRating score)

/-- The 5-tier rating scale exactly as the specification words it
("Exceptional ≥90, Strong ≥70, Good ≥50, Moderate ≥30, else Limited"),
written from the spec for comparison against the source's functions. -/
def fiveTierSpec (score : ℚ) : String :=
  if 90 ≤ score then "Exceptional"
  else if 70 ≤ score then "Strong"
  else if 50 ≤ score then "Good"
  else if 30 ≤ score then "Moderate"
  else "Limited"

/-- The 7-tier rating scale exactly as the specification words it
("Outstanding ≥90 … Needs Improvement <40"), written from the spec for
comparison against the source's functions. -/
def sevenTierSpec (score : ℚ) : String :=
  if 90 ≤ score then "Outstanding"
  else if 80 ≤ score then "Excellent"
  else if 70 ≤ score then "Very Good"
  else if 60 ≤ score then "Good"
  else if 50 ≤ score then "Satisfactory"
  else if 40 ≤ score then "Acceptable"
  else "Needs Improvement"

/-- The health-impact figures computed by the `/social/health-impact`
route (src/unnamed/part_003, lines 261-279). -/
structure HealthImpactReport where
  green_roof_area : ℚ
  stress_reduction_percentage : ℚ
  hypertension_reduction : ℚ
  mortality_reduction : ℚ
  productivity_increase : ℚ
  sick_days_reduction : ℚ
  health_impact_score : ℚ
deriving DecidableEq, Repr

/-- The health-impact calculation (src/unnamed/part_003, lines
261-279): `green_roof_area = roof_area * (roof_division["Green Areas"]
|| 0) / 100`, five research constants scaled by the green-area ratio
and (except mortality) by the green-view percentage, and the unweighted
mean of the five as the score. -/
def healthImpact (roof_area : ℚ) (division : List (String × ℚ))
    (green_view_percentage : ℚ) : HealthImpactReport :=
  let green_roof_area := roof_area * ((alookup division "Green Areas").getD 0) / 100
  let stress := 39.4 * (green_roof_area / roof_area) * (green_view_percentage / 100)
  let hyper := 6.77 * (green_roof_area / roof_area) * (green_view_percentage / 100)
  let mort := 15 * (green_roof_area / roof_area)
  let prod := 22.6 * (green_roof_area / roof_area) * (green_view_percentage / 100)
  let sick := 12.3 * (green_roof_area / roof_area) * (green_view_percentage / 100)
  { green_roof_area := green_roof_area
    stress_reduction_percentage := stress
    hypertension_reduction := hyper
    mortality_reduction := mort
    productivity_increase := prod
    sick_days_reduction := sick
    health_impact_score := (stress + hyper + mort + prod + sick) / 5 }

/-- A concrete computable stand-in for `Math.exp`, used to instantiate
witnesses: positive, strictly monotone, and equal to 1 at 0. -/
def EExample (x : ℚ) : ℚ :=
  if 0 ≤ x then x + 1 else 1 / (1 - x)

/-! ### Helper lemmas -/

theorem getD_range_map {α : Type} (h : ℕ → α) (d : α) (n i : ℕ) (hi : i < n) :
    ((List.range n).map h).getD i d = h i := by
  rw [List.getD_eq_getElem?_getD, List.getElem?_map, List.getElem?_range hi]
  rfl

theorem linspaceQ_length (s f : ℚ) (n : ℕ) : (linspaceQ s f n).length = n := by
  rw [linspaceQ, List.length_map, List.length_range]

theorem jadd_nan_right (a : JSNum) : jadd a JSNum.nan = JSNum.nan := by
  cases a <;> rfl

theorem jmul_nan_left (b : JSNum) : jmul JSNum.nan b = JSNum.nan := by
  cases b <;> rfl

theorem jdiv_nan_right (a : JSNum) : jdiv a JSNum.nan = JSNum.nan := by
  cases a <;> rfl

theorem foldl_jadd_nan (l : List JSNum) : l.foldl jadd JSNum.nan = JSNum.nan := by
  induction l with
  | nil => rfl
  | cons x xs ih => simpa [jadd] using ih

theorem foldl_jadd_of_mem_nan (l : List JSNum) (h : JSNum.nan ∈ l) (acc : JSNum) :
    l.foldl jadd acc = JSNum.nan := by
  induction l generalizing acc with
  | nil => cases h
  | cons x xs ih =>
    rcases List.mem_cons.1 h with rfl | hx
    · rw [List.foldl_cons, jadd_nan_right, foldl_jadd_nan]
    · exact ih hx _

theorem mem_snd_of_alookup {β : Type} (l : List (String × β)) (k : String) (v : β)
    (h : alookup l k = some v) : v ∈ l.map Prod.snd := by
  induction l with
  | nil => simp [alookup] at h
  | cons kv rest ih =>
    rw [alookup] at h
    by_cases hk : k = kv.1
    · rw [if_pos hk] at h
      cases h
      exact List.mem_map.2 ⟨kv, List.mem_cons_self _ _, rfl⟩
    · rw [if_neg hk] at h
      rcases List.mem_map.1 (ih h) with ⟨a, ha, rfl⟩
      exact List.mem_map.2 ⟨a, List.mem_cons_of_mem _ ha, rfl⟩

theorem annualSavingsJS_alookup_nan (division fullSavings : List (String × ℚ)) (k : String)
    (hk : k ∈ division.map Prod.fst) (hmiss : alookup fullSavings k = none) :
    alookup (annualSavingsJS division fullSavings) k = some JSNum.nan := by
  induction division with
  | nil => simp at hk
  | cons kv rest ih =>
    rw [annualSavingsJS, List.map_cons, alookup]
    by_cases hkk : k = kv.1
    · rw [if_pos hkk]
      have hnan : jsRead fullSavings kv.1 = JSNum.nan := by
        rw [jsRead, ← hkk, hmiss]
      rw [hnan, jmul_nan_left]
    · rw [if_neg hkk]
      have hk' : k ∈ rest.map Prod.fst := by
        rw [List.map_cons] at hk
        rcases List.mem_cons.1 hk with h | h
        · exact absurd h hkk
        · exact h
      exact ih hk'

theorem validateParams_eq_none (p : EngineParams)
    (h1 : 0 < p.roof_area) (h2 : 0 < p.GWP_roof)
    (h3 : 0 ≤ p.decline_rate) (h4 : p.decline_rate < 1)
    (h5 : 0 < p.years_to_calculate) (h6 : 0 < p.points)
    (h7 : |divisionSum p.roof_division - 100| ≤ 0.01) :
    validateParams p = none := by
  have c1 : ¬ p.roof_area ≤ 0 := not_le.2 h1
  have c2 : ¬ p.GWP_roof ≤ 0 := not_le.2 h2
  have c3 : ¬ (p.decline_rate < 0 ∨ 1 ≤ p.decline_rate) := by
    rintro (h | h) <;> linarith
  have c4 : ¬ p.years_to_calculate ≤ 0 := not_le.2 h5
  have c5 : ¬ (p.points : ℚ) ≤ 0 := not_le.2 (by exact_mod_cast h6)
  rw [validateParams, if_neg c1, if_neg c2, if_neg c3, if_neg c4, if_neg c5,
    if_neg (not_not_intro h7)]

theorem performCalculations_ok (E : ℚ → ℚ) (p : EngineParams)
    (h : validateParams p = none) :
    performCalculations E p = Except.ok (calcResult E p) := by
  rw [performCalculations, h]

theorem co2Go_nonneg (step : ℚ → ℚ → ℚ) (hstep : ∀ y v, 0 ≤ step y v)
    (prev : ℚ) (ys : List ℚ) : ∀ x ∈ co2Go step prev ys, 0 ≤ x := by
  induction ys generalizing prev with
  | nil => intro x hx; cases hx
  | cons y ys ih =>
    intro x hx
    rcases List.mem_cons.1 hx with rfl | hx
    · exact hstep _ _
    · exact ih _ _ hx

theorem improveStep_nonneg (E : ℚ → ℚ) (rate climate degr points : ℚ)
    (sav : String → ℚ) (impYears : List (String × ℚ)) (year prev : ℚ) :
    0 ≤ improveStep E rate climate degr points sav impYears year prev :=
  le_max_left 0 _

theorem firstLeZeroIdx_eq_none_iff (l : List ℚ) :
    firstLeZeroIdx l = none ↔ ∀ x ∈ l, ¬ x ≤ 0 := by
  induction l with
  | nil => simp [firstLeZeroIdx]
  | cons x xs ih =>
    rw [firstLeZeroIdx]
    by_cases hx : x ≤ 0
    · simp [hx]
    · have hx' : 0 < x := not_le.1 hx
      simp [hx, ih, hx']

theorem firstLeZeroIdx_eq_some (l : List ℚ) (i : ℕ)
    (hi : i < l.length) (hle : l.getD i 0 ≤ 0)
    (hfirst : ∀ j, j < i → ¬ l.getD j 0 ≤ 0) :
    firstLeZeroIdx l = some i := by
  induction l generalizing i with
  | nil => simp at hi
  | cons x xs ih =>
    by_cases hx : x ≤ 0
    · have hi0 : i = 0 := by
        by_contra hne
        exact hfirst 0 (Nat.pos_of_ne_zero hne) (by simpa using hx)
      subst hi0
      rw [firstLeZeroIdx, if_pos hx]
    · have hne : i ≠ 0 := by
        intro h
        subst h
        exact hx (by simpa using hle)
      obtain ⟨j, rfl⟩ := Nat.exists_eq_succ_of_ne_zero hne
      rw [firstLeZeroIdx, if_neg hx,
        ih j (by simpa using hi) (by simpa using hle)
          (fun m hm => by simpa using hfirst (m + 1) (by omega))]
      rfl

theorem firstLeZeroIdx_zero_le (l : List ℚ) (h : firstLeZeroIdx l = some 0) :
    l.getD 0 0 ≤ 0 := by
  cases l with
  | nil => simp [firstLeZeroIdx] at h
  | cons x xs =>
    rw [firstLeZeroIdx] at h
    by_cases hx : x ≤ 0
    · simpa using hx
    · rw [if_neg hx] at h
      rcases hmap : firstLeZeroIdx xs with _ | j <;> rw [hmap] at h <;> simp at h

theorem neutralityYear_none_iff (curve years : List ℚ) (hpos : 0 < curve.getD 0 0) :
    neutralityYear curve years = none ↔ ∀ x ∈ curve, ¬ x ≤ 0 := by
  constructor
  · intro h x hx hxle
    rcases hidx : firstLeZeroIdx curve with _ | i
    · rw [firstLeZeroIdx_eq_none_iff] at hidx
      exact hidx x hx hxle
    · rcases Nat.eq_zero_or_pos i with rfl | hi
      · exact absurd (firstLeZeroIdx_zero_le curve hidx) (not_le.2 hpos)
      · rw [neutralityYear, hidx] at h
        simp [hi] at h
  · intro h
    rw [neutralityYear, (firstLeZeroIdx_eq_none_iff curve).2 h]

theorem neutralityYear_eq_some (curve years : List ℚ) (i : ℕ)
    (hpos : 0 < curve.getD 0 0) (hi : i < curve.length)
    (hle : curve.getD i 0 ≤ 0) (hfirst : ∀ j, j < i → ¬ curve.getD j 0 ≤ 0) :
    neutralityYear curve years = some (years.getD i 0) := by
  have hidx := firstLeZeroIdx_eq_some curve i hi hle hfirst
  have hi0 : 0 < i := by
    rcases Nat.eq_zero_or_pos i with rfl | h
    · exact absurd hle (not_le.2 hpos)
    · exact h
  rw [neutralityYear, hidx]
  simp [hi0]

theorem EExample_pos (x : ℚ) : 0 < EExample x := by
  rw [EExample]
  by_cases hx : 0 ≤ x
  · rw [if_pos hx]; linarith
  · rw [if_neg hx]
    have : (0 : ℚ) < 1 - x := by push_neg at hx; linarith
    positivity

theorem EExample_strictMono : StrictMono EExample := by
  intro a b hab
  rw [EExample, EExample]
  by_cases ha : 0 ≤ a
  · rw [if_pos ha, if_pos (by linarith)]
    linarith
  · push_neg at ha
    rw [if_neg (not_le.2 ha)]
    by_cases hb : 0 ≤ b
    · rw [if_pos hb]
      have h1 : (1 : ℚ) < 1 - a := by linarith
      have : 1 / (1 - a) < 1 := by
        rw [div_lt_one (by linarith)]
        exact h1
      linarith
    · push_neg at hb
      rw [if_neg (not_le.2 hb)]
      exact one_div_lt_one_div_of_lt (by linarith) (by linarith)

theorem EExample_zero : EExample 0 = 1 := by
  rw [EExample, if_pos le_rfl]
  norm_num

theorem calcResult_co2_with (E : ℚ → ℚ) (p : EngineParams) :
    (calcResult E p).co2_with_improvements =
      co2WithImprovements E p.decline_rate (climateFactorOf p.climate_zone)
        p.efficiency_degradation (p.points : ℚ)
        (annualSavingsQ p.roof_division p.full_savings) p.improvement_years
        (linspaceQ 0 p.years_to_calculate p.points) (p.GWP_roof * p.roof_area) := rfl

theorem calcResult_co2_natural (E : ℚ → ℚ) (p : EngineParams) :
    (calcResult E p).co2_natural_decline =
      co2NaturalDecline E (p.GWP_roof * p.roof_area) p.decline_rate
        (climateFactorOf p.climate_zone) (linspaceQ 0 p.years_to_calculate p.points) := rfl

theorem calcResult_years (E : ℚ → ℚ) (p : EngineParams) :
    (calcResult E p).years = linspaceQ 0 p.years_to_calculate p.points := rfl

theorem calcResult_neutrality_improved (E : ℚ → ℚ) (p : EngineParams) :
    (calcResult E p).neutrality_improved =
      neutralityYear (calcResult E p).co2_with_improvements (calcResult E p).years := rfl

theorem calcResult_neutrality_natural (E : ℚ → ℚ) (p : EngineParams) :
    (calcResult E p).neutrality_natural =
      neutralityYear (calcResult E p).co2_natural_decline (calcResult E p).years := rfl

theorem calcResult_total_annual_savings (E : ℚ → ℚ) (p : EngineParams) :
    (calcResult E p).total_annual_savings =
      totalAnnualSavingsJS p.roof_division p.full_savings := rfl

theorem calcResult_simple_payback (E : ℚ → ℚ) (p : EngineParams) :
    (calcResult E p).simple_payback_years =
      jdiv (JSNum.num (calculateEstimatedCost p.roof_area p.roof_division))
        (totalAnnualSavingsJS p.roof_division p.full_savings) := rfl

theorem linspaceQ_cons (s f : ℚ) (n : ℕ) (hn : 0 < n) :
    ∃ rest : List ℚ, linspaceQ s f n = s :: rest := by
  obtain ⟨m, rfl⟩ := Nat.exists_eq_succ_of_ne_zero (Nat.pos_iff_ne_zero.1 hn)
  rw [linspaceQ, List.range_succ_eq_map, List.map_cons]
  simp only [Nat.cast_zero, mul_zero, add_zero]
  exact ⟨_, rfl⟩

/-! ### Claim theorems -/

/-- Claim C6: whenever the earlier validation checks pass but the roof
division percentages sum outside `100 ± 0.01`, `performCalculations`
throws the error "Roof division percentages must sum to 100%"; the
rejection happens in the validation prefix, before any timeline value
is computed, so no partial result is produced (the model returns
`Except.error` with no `CalcResult`). -/
theorem C6_division_sum_rejected (E : ℚ → ℚ) (p : EngineParams)
    (h1 : 0 < p.roof_area) (h2 : 0 < p.GWP_roof)
    (h3 : 0 ≤ p.decline_rate) (h4 : p.decline_rate < 1)
    (h5 : 0 < p.years_to_calculate) (h6 : 0 < p.points)
    (h7 : 0.01 < |divisionSum p.roof_division - 100|) :
    performCalculations E p = Except.error "Roof division percentages must sum to 100%" := by
  have c1 : ¬ p.roof_area ≤ 0 := not_le.2 h1
  have c2 : ¬ p.GWP_roof ≤ 0 := not_le.2 h2
  have c3 : ¬ (p.decline_rate < 0 ∨ 1 ≤ p.decline_rate) := by
    rintro (h | h) <;> linarith
  have c4 : ¬ p.years_to_calculate ≤ 0 := not_le.2 h5
  have c5 : ¬ (p.points : ℚ) ≤ 0 := not_le.2 (by exact_mod_cast h6)
  rw [performCalculations, validateParams, if_neg c1, if_neg c2, if_neg c3, if_neg c4,
    if_neg c5, if_pos (not_le.2 h7)]

/-- Claim C8: in the health-impact calculation, with
`greenArea = roof_area * roof_division["Green Areas"]/100`, the five
impact values are the research constants 39.4, 6.77, 15, 22.6 and 12.3
scaled by `greenArea/roof_area`, all but the mortality constant
additionally scaled by `green_view_percentage/100`, and the score is
the unweighted mean of the five; at `roof_area = 2776`,
`division["Green Areas"] = 25`, `view = 60` this gives
`green_roof_area = 694` and stress reduction `5.91`. -/
theorem C8_health_impact_formulas (area : ℚ) (division : List (String × ℚ)) (view : ℚ)
    (h : 0 < area) :
    (healthImpact area division view).green_roof_area =
      area * ((alookup division "Green Areas").getD 0) / 100 ∧
    (healthImpact area division view).stress_reduction_percentage =
      39.4 * ((healthImpact area division view).green_roof_area / area) * (view / 100) ∧
    (healthImpact area division view).hypertension_reduction =
      6.77 * ((healthImpact area division view).green_roof_area / area) * (view / 100) ∧
    (healthImpact area division view).mortality_reduction =
      15 * ((healthImpact area division view).green_roof_area / area) ∧
    (healthImpact area division view).productivity_increase =
      22.6 * ((healthImpact area division view).green_roof_area / area) * (view / 100) ∧
    (healthImpact area division view).sick_days_reduction =
      12.3 * ((healthImpact area division view).green_roof_area / area) * (view / 100) ∧
    (healthImpact area division view).health_impact_score =
      ((healthImpact area division view).stress_reduction_percentage +
        (healthImpact area division view).hypertension_reduction +
        (healthImpact area division view).mortality_reduction +
        (healthImpact area division view).productivity_increase +
        (healthImpact area division view).sick_days_reduction) / 5 ∧
    (healthImpact 2776 [("Green Areas", 25), ("Solar Power", 25),
      ("Water Management", 25), ("Social Impact", 25)] 60).green_roof_area = 694 ∧
    (healthImpact 2776 [("Green Areas", 25), ("Solar Power", 25),
      ("Water Management", 25), ("Social Impact", 25)] 60).stress_reduction_percentage = 5.91 := by
  refine ⟨rfl, rfl, rfl, rfl, rfl, rfl, rfl, ?_, ?_⟩ <;>
    norm_num [healthImpact, alookup]

/-- Claim C8 witness at `area = 2776`, the default division and
`view = 60`. -/
theorem C8_health_impact_formulas_witness :
    (0 : ℚ) < 2776 ∧
    (healthImpact 2776 [("Green Areas", 25), ("Solar Power", 25),
      ("Water Management", 25), ("Social Impact", 25)] 60).green_roof_area =
      2776 * ((alookup [("Green Areas", (25 : ℚ)), ("Solar Power", 25),
        ("Water Management", 25), ("Social Impact", 25)] "Green Areas").getD 0) / 100 :=
  ⟨by norm_num,
    (C8_health_impact_formulas 2776 [("Green Areas", 25), ("Solar Power", 25),
      ("Water Management", 25), ("Social Impact", 25)] 60 (by norm_num)).1⟩

/-- Counterexample to claim C2 as stated: the enhanced pipeline attaches
the 7-tier rating, not the 5-tier one, and the standalone SDG report
attaches the 5-tier rating, not the 7-tier one.  At sustainability
score 75 the enhanced pipeline reports "Very Good" where the 5-tier
scale says "Strong"; at SDG alignment score 100 the report says
"Exceptional" where the 7-tier scale says "Outstanding". -/
theorem C2_rating_scales_counterexample :
    (enhancedSustainability 1875 100 0 0 0).1 = 75 ∧
    (enhancedSustainability 1875 100 0 0 0).2 = "Very Good" ∧
    fiveTierSpec 75 = "Strong" ∧
    (enhancedSustainability 1875 100 0 0 0).2 ≠
      fiveTierSpec (enhancedSustainability 1875 100 0 0 0).1 ∧
    (sdgReportAlignment 17).1 = 100 ∧
    (sdgReportAlignment 17).2 = "Exceptional" ∧
    sevenTierSpec 100 = "Outstanding" ∧
    (sdgReportAlignment 17).2 ≠ sevenTierSpec (sdgReportAlignment 17).1 := by
  have h1 : (enhancedSustainability 1875 100 0 0 0).1 = 75 := by
    norm_num [enhancedSustainability, sustainabilityScore]
  have h2 : (enhancedSustainability 1875 100 0 0 0).2 = "Very Good" := by
    norm_num [enhancedSustainability, sustainabilityScore, getSustainabilityRating]
  have h3 : fiveTierSpec 75 = "Strong" := by norm_num [fiveTierSpec]
  have h4 : (sdgReportAlignment 17).1 = 100 := by
    norm_num [sdgReportAlignment, sdgAlignmentScore]
  have h5 : (sdgReportAlignment 17).2 = "Exceptional" := by
    norm_num [sdgReportAlignment, sdgAlignmentScore, getSdgAlignmentRating]
  have h6 : sevenTierSpec 100 = "Outstanding" := by norm_num [sevenTierSpec]
  refine ⟨h1, h2, h3, ?_, h4, h5, h6, ?_⟩
  · rw [h1, h2, h3]
    decide
  · rw [h4, h5, h6]
    decide

/-- Claim C2 amended: the two rating scales are assigned the other way
around — for every score, the rating attached by the enhanced pipeline
(`performEnhancedCalculations`) is computed with the 7-tier scale
(Outstanding ≥90 … Needs Improvement <40), and the rating attached to
the standalone SDG report's alignment score is computed with the 5-tier
scale (Exceptional ≥90, Strong ≥70, Good ≥50, Moderate ≥30, else
Limited). -/
theorem C2_rating_scales_amended (total initial social health sdg : ℚ) (c : ℕ) :
    (enhancedSustainability total initial social health sdg).2 =
      sevenTierSpec (sustainabilityScore total initial social health sdg) ∧
    (sdgReportAlignment c).2 = fiveTierSpec (sdgAlignmentScore c) :=
  ⟨rfl, rfl⟩

/-- Claim C10: every climate zone string other than the five recognized
zones silently gets climate factor 1.0 — the same factor as
"temperate", with the whole computation agreeing with the "temperate"
computation — and the configuration is never rejected because of its
climate zone. -/
theorem C10_unrecognized_zone (E : ℚ → ℚ) (p : EngineParams) (z : String)
    (hz : z ∉ ["temperate", "tropical", "arid", "continental", "polar"]) :
    climateFactorOf z = 1 ∧
    climateFactorOf z = climateFactorOf "temperate" ∧
    performCalculations E { p with climate_zone := z } =
      performCalculations E { p with climate_zone := "temperate" } := by
  have hz' : ¬ (z = "temperate" ∨ z = "tropical" ∨ z = "arid" ∨ z = "continental" ∨
      z = "polar") := by simpa using hz
  push_neg at hz'
  obtain ⟨hz1, hz2, hz3, hz4, hz5⟩ := hz'
  have hfac : climateFactorOf z = 1 := by
    rw [climateFactorOf, if_neg hz1, if_neg hz2, if_neg hz3, if_neg hz4, if_neg hz5]
    norm_num
  have hfact : climateFactorOf "temperate" = 1 := by norm_num [climateFactorOf]
  refine ⟨hfac, hfac.trans hfact.symm, ?_⟩
  have hval : validateParams { p with climate_zone := z } =
      validateParams { p with climate_zone := "temperate" } := rfl
  have hres : calcResult E { p with climate_zone := z } =
      calcResult E { p with climate_zone := "temperate" } := by
    show calcResultCore E (climateFactorOf z) { p with climate_zone := z } =
      calcResultCore E (climateFactorOf "temperate") { p with climate_zone := "temperate" }
    rw [hfac, hfact]
    rfl
  rw [performCalculations, performCalculations, hval, hres]

/-- Claim C3: for both curves scanned by the neutrality analysis of an
accepted configuration (assuming only `E 0 = 1`, true of `Math.exp`),
the reported neutrality year equals `years[i0]` for the smallest index
`i0` with a non-positive sample, and the reported value is null exactly
when no sample of the curve is non-positive. -/
theorem C3_neutrality_first_crossing (E : ℚ → ℚ) (p : EngineParams)
    (h1 : 0 < p.roof_area) (h2 : 0 < p.GWP_roof)
    (h3 : 0 ≤ p.decline_rate) (h4 : p.decline_rate < 1)
    (h5 : 0 < p.years_to_calculate) (h6 : 0 < p.points)
    (h7 : |divisionSum p.roof_division - 100| ≤ 0.01)
    (hE0 : E 0 = 1) :
    performCalculations E p = Except.ok (calcResult E p) ∧
    ((calcResult E p).neutrality_improved = none ↔
      ∀ x ∈ (calcResult E p).co2_with_improvements, ¬ x ≤ 0) ∧
    (∀ i : ℕ, i < (calcResult E p).co2_with_improvements.length →
      (calcResult E p).co2_with_improvements.getD i 0 ≤ 0 →
      (∀ j, j < i → ¬ (calcResult E p).co2_with_improvements.getD j 0 ≤ 0) →
      (calcResult E p).neutrality_improved = some ((calcResult E p).years.getD i 0)) ∧
    ((calcResult E p).neutrality_natural = none ↔
      ∀ x ∈ (calcResult E p).co2_natural_decline, ¬ x ≤ 0) ∧
    (∀ i : ℕ, i < (calcResult E p).co2_natural_decline.length →
      (calcResult E p).co2_natural_decline.getD i 0 ≤ 0 →
      (∀ j, j < i → ¬ (calcResult E p).co2_natural_decline.getD j 0 ≤ 0) →
      (calcResult E p).neutrality_natural = some ((calcResult E p).years.getD i 0)) := by
  obtain ⟨rest, hrest⟩ := linspaceQ_cons 0 p.years_to_calculate p.points h6
  have hin : (0 : ℚ) < p.GWP_roof * p.roof_area := mul_pos h2 h1
  have hposI : 0 < (calcResult E p).co2_with_improvements.getD 0 0 := by
    rw [calcResult_co2_with, hrest, co2WithImprovements]
    simpa using hin
  have hposN : 0 < (calcResult E p).co2_natural_decline.getD 0 0 := by
    rw [calcResult_co2_natural, hrest, co2NaturalDecline, List.map_cons]
    simpa [hE0] using hin
  refine ⟨performCalculations_ok E p (validateParams_eq_none p h1 h2 h3 h4 h5 h6 h7),
    ?_, ?_, ?_, ?_⟩
  · rw [calcResult_neutrality_improved]
    exact neutralityYear_none_iff _ _ hposI
  · intro i hi hle hfirst
    rw [calcResult_neutrality_improved]
    exact neutralityYear_eq_some _ _ i hposI hi hle hfirst
  · rw [calcResult_neutrality_natural]
    exact neutralityYear_none_iff _ _ hposN
  · intro i hi hle hfirst
    rw [calcResult_neutrality_natural]
    exact neutralityYear_eq_some _ _ i hposN hi hle hfirst

/-- Claim C7: for every accepted configuration with positive decline
rate, positive climate factor and at least two samples, the natural
decline curve is strictly decreasing between consecutive samples, in
exact arithmetic (`E` strictly monotone, as `Math.exp` is). -/
theorem C7_natural_decline_strict_anti (E : ℚ → ℚ) (p : EngineParams)
    (h1 : 0 < p.roof_area) (h2 : 0 < p.GWP_roof)
    (h3 : 0 < p.decline_rate) (h4 : p.decline_rate < 1)
    (h5 : 0 < p.years_to_calculate) (h6 : 2 ≤ p.points)
    (h7 : |divisionSum p.roof_division - 100| ≤ 0.01)
    (hclim : 0 < climateFactorOf p.climate_zone)
    (hE : StrictMono E) :
    performCalculations E p = Except.ok (calcResult E p) ∧
    ∀ i : ℕ, i + 1 < (calcResult E p).co2_natural_decline.length →
      (calcResult E p).co2_natural_decline.getD (i + 1) 0 <
        (calcResult E p).co2_natural_decline.getD i 0 := by
  have hin : (0 : ℚ) < p.GWP_roof * p.roof_area := mul_pos h2 h1
  have hnat : (calcResult E p).co2_natural_decline =
      (List.range p.points).map
        ((fun y : ℚ => p.GWP_roof * p.roof_area *
            E (-(p.decline_rate * y * climateFactorOf p.climate_zone))) ∘
          (fun i : ℕ => 0 + (p.years_to_calculate - 0) / ((p.points : ℚ) - 1) * (i : ℚ))) := by
    rw [calcResult_co2_natural, co2NaturalDecline, linspaceQ, List.map_map]
  have hlen : (calcResult E p).co2_natural_decline.length = p.points := by
    rw [hnat, List.length_map, List.length_range]
  have hstep : 0 < (p.years_to_calculate - 0) / ((p.points : ℚ) - 1) := by
    have h2q : (2 : ℚ) ≤ (p.points : ℚ) := by exact_mod_cast h6
    apply div_pos (by linarith) (by linarith)
  refine ⟨performCalculations_ok E p
    (validateParams_eq_none p h1 h2 (le_of_lt h3) h4 h5 (by omega) h7), ?_⟩
  intro i hi
  rw [hlen] at hi
  rw [hnat, getD_range_map _ _ _ _ hi, getD_range_map _ _ _ _ (by omega)]
  simp only [Function.comp_apply]
  have hg : 0 + (p.years_to_calculate - 0) / ((p.points : ℚ) - 1) * (i : ℚ) <
      0 + (p.years_to_calculate - 0) / ((p.points : ℚ) - 1) * ((i : ℚ) + 1) := by
    have : (i : ℚ) < (i : ℚ) + 1 := by linarith
    nlinarith [hstep]
  have harg : -(p.decline_rate *
        (0 + (p.years_to_calculate - 0) / ((p.points : ℚ) - 1) * ((i : ℚ) + 1)) *
        climateFactorOf p.climate_zone) <
      -(p.decline_rate *
        (0 + (p.years_to_calculate - 0) / ((p.points : ℚ) - 1) * (i : ℚ)) *
        climateFactorOf p.climate_zone) := by
    apply neg_lt_neg
    exact mul_lt_mul_of_pos_right (mul_lt_mul_of_pos_left hg h3) hclim
  have hcast : ((i + 1 : ℕ) : ℚ) = (i : ℚ) + 1 := by push_cast; ring
  rw [hcast]
  exact mul_lt_mul_of_pos_left (hE harg) hin

/-- Claim C1 amended: for an accepted configuration whose total annual
savings is zero, the returned `economics.simple_payback_years` is the
IEEE result of dividing the (positive) estimated cost by zero, namely
Infinity — the code has no null/sentinel branch. -/
theorem C1_zero_savings_payback_infinity (E : ℚ → ℚ) (p : EngineParams)
    (h1 : 0 < p.roof_area) (h2 : 0 < p.GWP_roof)
    (h3 : 0 ≤ p.decline_rate) (h4 : p.decline_rate < 1)
    (h5 : 0 < p.years_to_calculate) (h6 : 0 < p.points)
    (h7 : |divisionSum p.roof_division - 100| ≤ 0.01)
    (hz : totalAnnualSavingsJS p.roof_division p.full_savings = JSNum.num 0)
    (hc : 0 < calculateEstimatedCost p.roof_area p.roof_division) :
    performCalculations E p = Except.ok (calcResult E p) ∧
    (calcResult E p).simple_payback_years = JSNum.inf := by
  refine ⟨performCalculations_ok E p (validateParams_eq_none p h1 h2 h3 h4 h5 h6 h7), ?_⟩
  rw [calcResult_simple_payback, hz]
  simp [jdiv, hc]

/-- A concrete accepted configuration whose savings are all zero:
100% of the roof is "Green Areas" with `full_savings` 0 there. -/
def pZero : EngineParams :=
  { roof_area := 1, GWP_roof := 1, decline_rate := 0,
    roof_division := [("Green Areas", 100)], full_savings := [("Green Areas", 0)],
    improvement_years := [], years_to_calculate := 1, points := 1,
    efficiency_degradation := 0, climate_zone := "temperate" }

/-- Counterexample to claim C1 as stated: at `pZero` the configuration
is accepted and total annual savings is 0, yet the returned
`simple_payback_years` is Infinity (the result of the division), not a
null/sentinel value. -/
theorem C1_zero_savings_counterexample :
    performCalculations (fun _ => 1) pZero = Except.ok (calcResult (fun _ => 1) pZero) ∧
    (calcResult (fun _ => 1) pZero).total_annual_savings = JSNum.num 0 ∧
    (calcResult (fun _ => 1) pZero).simple_payback_years = JSNum.inf := by
  have htot : totalAnnualSavingsJS pZero.roof_division pZero.full_savings = JSNum.num 0 := by
    norm_num [pZero, totalAnnualSavingsJS, annualSavingsJS, jsRead, alookup, jmul, jadd]
  have hcost : calculateEstimatedCost pZero.roof_area pZero.roof_division = 120 := by
    norm_num [pZero, calculateEstimatedCost, costFactorOf]
  refine ⟨performCalculations_ok _ _ (validateParams_eq_none pZero (by norm_num [pZero])
    (by norm_num [pZero]) (by norm_num [pZero]) (by norm_num [pZero]) (by norm_num [pZero])
    (by norm_num [pZero]) (by norm_num [pZero, divisionSum])), ?_, ?_⟩
  · rw [calcResult_total_annual_savings]
    exact htot
  · rw [calcResult_simple_payback, htot, hcost]
    norm_num [jdiv]

/-- Claim C9: a key of `roof_division` with no entry in `full_savings`
does not make `performCalculations` raise: validation passes, the
key's `annual_savings` entry is NaN (`undefined` times a number), and
total annual savings and `simple_payback_years` are NaN. -/
theorem C9_missing_full_savings_nan (E : ℚ → ℚ) (p : EngineParams) (k : String)
    (h1 : 0 < p.roof_area) (h2 : 0 < p.GWP_roof)
    (h3 : 0 ≤ p.decline_rate) (h4 : p.decline_rate < 1)
    (h5 : 0 < p.years_to_calculate) (h6 : 0 < p.points)
    (h7 : |divisionSum p.roof_division - 100| ≤ 0.01)
    (hk : k ∈ p.roof_division.map Prod.fst)
    (hmiss : alookup p.full_savings k = none) :
    performCalculations E p = Except.ok (calcResult E p) ∧
    alookup (annualSavingsJS p.roof_division p.full_savings) k = some JSNum.nan ∧
    (calcResult E p).total_annual_savings = JSNum.nan ∧
    (calcResult E p).simple_payback_years = JSNum.nan := by
  have hlook := annualSavingsJS_alookup_nan p.roof_division p.full_savings k hk hmiss
  have hmem : JSNum.nan ∈ (annualSavingsJS p.roof_division p.full_savings).map Prod.snd :=
    mem_snd_of_alookup _ _ _ hlook
  have htot : totalAnnualSavingsJS p.roof_division p.full_savings = JSNum.nan := by
    rw [totalAnnualSavingsJS]
    exact foldl_jadd_of_mem_nan _ hmem _
  refine ⟨performCalculations_ok E p (validateParams_eq_none p h1 h2 h3 h4 h5 h6 h7),
    hlook, ?_, ?_⟩
  · rw [calcResult_total_annual_savings]
    exact htot
  · rw [calcResult_simple_payback, htot, jdiv_nan_right]

/-- Counterexample to claim C5 as stated: at `points = 1` (allowed by
the claim's `points >= 1` and by the engine's validation) the grid
`linspace(0, 50, 1)` is `[NaN]` — the step is `50/0 = Infinity` and
`Infinity * 0 = NaN` — so its first entry is not 0. -/
theorem C5_linspace_one_point_counterexample :
    linspaceJS (JSNum.num 0) (JSNum.num 50) 1 = [JSNum.nan] ∧
    JSNum.nan ≠ JSNum.num 0 := by
  constructor
  · norm_num [linspaceJS, List.range_succ, jsub, jneg, jadd, jmul, jdiv]
  · simp

/-- Claim C5 amended: for `points >= 2` the grid has exactly `points`
entries, entry `i` being `horizonYears/(points-1) * i`: the first entry
is 0, the last is `horizonYears`, and consecutive entries differ by the
constant step `horizonYears/(points-1)` (even spacing).  At
`points = 1` the single entry is NaN instead (see the counterexample). -/
theorem C5_linspace_grid (Y : ℚ) (n : ℕ) (hn : 2 ≤ n) (hY : 0 < Y) :
    linspaceJS (JSNum.num 0) (JSNum.num Y) n =
      (List.range n).map (fun i : ℕ => JSNum.num (Y / ((n : ℚ) - 1) * (i : ℚ))) ∧
    (linspaceJS (JSNum.num 0) (JSNum.num Y) n).length = n ∧
    (linspaceJS (JSNum.num 0) (JSNum.num Y) n).getD 0 JSNum.nan = JSNum.num 0 ∧
    (linspaceJS (JSNum.num 0) (JSNum.num Y) n).getD (n - 1) JSNum.nan = JSNum.num Y ∧
    (∀ i : ℕ, i + 1 < n →
      Y / ((n : ℚ) - 1) * ((i : ℚ) + 1) - Y / ((n : ℚ) - 1) * (i : ℚ) =
        Y / ((n : ℚ) - 1)) := by
  have h2q : (2 : ℚ) ≤ (n : ℚ) := by exact_mod_cast hn
  have hne : ((n : ℚ) - 1) ≠ 0 := by linarith
  have hmain : linspaceJS (JSNum.num 0) (JSNum.num Y) n =
      (List.range n).map (fun i : ℕ => JSNum.num (Y / ((n : ℚ) - 1) * (i : ℚ))) := by
    rw [linspaceJS]
    apply List.map_congr_left
    intro i _
    simp [jsub, jneg, jadd, jmul, jdiv, hne]
  refine ⟨hmain, ?_, ?_, ?_, ?_⟩
  · rw [hmain, List.length_map, List.length_range]
  · rw [hmain, getD_range_map _ _ _ _ (by omega)]
    norm_num
  · rw [hmain, getD_range_map _ _ _ _ (by omega)]
    have hcast : ((n - 1 : ℕ) : ℚ) = (n : ℚ) - 1 := by
      have : 1 ≤ n := by omega
      push_cast [Nat.cast_sub this]
      ring
    rw [hcast, div_mul_cancel₀ _ hne]
  · intro i _
    ring

/-- The repository's default configuration, at two samples for cheap
evaluation. -/
def pBase : EngineParams :=
  { roof_area := 2776, GWP_roof := 3.33, decline_rate := 0.03,
    roof_division := [("Green Areas", 25), ("Solar Power", 25),
      ("Water Management", 25), ("Social Impact", 25)],
    full_savings := [("Green Areas", 1347.98), ("Solar Power", 12142.5),
      ("Water Management", 1441.25), ("Social Impact", 4180.0)],
    improvement_years := [("Green Areas", 0), ("Solar Power", 1),
      ("Water Management", 2), ("Social Impact", 3)],
    years_to_calculate := 50, points := 2,
    efficiency_degradation := 0.005, climate_zone := "temperate" }

/-- `pBase` with a division summing to 50 instead of 100. -/
def pBadSum : EngineParams :=
  { pBase with roof_division := [("Green Areas", 50)] }

/-- A valid configuration whose division key has no `full_savings`
entry. -/
def pMissing : EngineParams :=
  { pBase with roof_division := [("Green Areas", 100)], full_savings := [] }

/-- Claim C1 witness: `pZero` is accepted, has zero total annual
savings and positive cost, and its payback is Infinity. -/
theorem C1_zero_savings_payback_infinity_witness :
    totalAnnualSavingsJS pZero.roof_division pZero.full_savings = JSNum.num 0 ∧
    0 < calculateEstimatedCost pZero.roof_area pZero.roof_division ∧
    (calcResult (fun _ => 1) pZero).simple_payback_years = JSNum.inf :=
  ⟨by norm_num [pZero, totalAnnualSavingsJS, annualSavingsJS, jsRead, alookup, jmul, jadd],
   by norm_num [pZero, calculateEstimatedCost, costFactorOf],
   (C1_zero_savings_payback_infinity (fun _ => 1) pZero
      (by norm_num [pZero]) (by norm_num [pZero]) (by norm_num [pZero])
      (by norm_num [pZero]) (by norm_num [pZero]) (by norm_num [pZero])
      (by norm_num [pZero, divisionSum])
      (by norm_num [pZero, totalAnnualSavingsJS, annualSavingsJS, jsRead, alookup, jmul, jadd])
      (by norm_num [pZero, calculateEstimatedCost, costFactorOf])).2⟩

/-- Claim C3 witness: the neutrality characterization applied to the
default configuration with the concrete exponential model. -/
theorem C3_neutrality_first_crossing_witness :
    EExample 0 = 1 ∧
    performCalculations EExample pBase = Except.ok (calcResult EExample pBase) :=
  ⟨EExample_zero,
   (C3_neutrality_first_crossing EExample pBase
      (by norm_num [pBase]) (by norm_num [pBase]) (by norm_num [pBase])
      (by norm_num [pBase]) (by norm_num [pBase]) (by norm_num [pBase])
      (by norm_num [pBase, divisionSum]) EExample_zero).1⟩

/-- Claim C5 witness: the amended grid properties at `Y = 50`,
`points = 3`. -/
theorem C5_linspace_grid_witness :
    (2 ≤ 3) ∧ ((0 : ℚ) < 50) ∧
    (linspaceJS (JSNum.num 0) (JSNum.num 50) 3).length = 3 ∧
    (linspaceJS (JSNum.num 0) (JSNum.num 50) 3).getD 0 JSNum.nan = JSNum.num 0 ∧
    (linspaceJS (JSNum.num 0) (JSNum.num 50) 3).getD 2 JSNum.nan = JSNum.num 50 :=
  ⟨by norm_num, by norm_num,
   (C5_linspace_grid 50 3 (by norm_num) (by norm_num)).2.1,
   (C5_linspace_grid 50 3 (by norm_num) (by norm_num)).2.2.1,
   (C5_linspace_grid 50 3 (by norm_num) (by norm_num)).2.2.2.1⟩

/-- Claim C6 witness: a division summing to 50 is rejected with the
percentage message. -/
theorem C6_division_sum_rejected_witness :
    (0.01 : ℚ) < |divisionSum pBadSum.roof_division - 100| ∧
    performCalculations EExample pBadSum =
      Except.error "Roof division percentages must sum to 100%" :=
  ⟨by norm_num [pBadSum, pBase, divisionSum],
   C6_division_sum_rejected EExample pBadSum
     (by norm_num [pBadSum, pBase]) (by norm_num [pBadSum, pBase])
     (by norm_num [pBadSum, pBase]) (by norm_num [pBadSum, pBase])
     (by norm_num [pBadSum, pBase]) (by norm_num [pBadSum, pBase])
     (by norm_num [pBadSum, pBase, divisionSum])⟩

/-- Claim C7 witness: strict decrease of the natural curve at the
default configuration with the concrete strictly monotone `EExample`. -/
theorem C7_natural_decline_strict_anti_witness :
    (0 : ℚ) < pBase.decline_rate ∧ 2 ≤ pBase.points ∧
    ∀ i : ℕ, i + 1 < (calcResult EExample pBase).co2_natural_decline.length →
      (calcResult EExample pBase).co2_natural_decline.getD (i + 1) 0 <
        (calcResult EExample pBase).co2_natural_decline.getD i 0 :=
  ⟨by norm_num [pBase], by norm_num [pBase],
   (C7_natural_decline_strict_anti EExample pBase
      (by norm_num [pBase]) (by norm_num [pBase]) (by norm_num [pBase])
      (by norm_num [pBase]) (by norm_num [pBase]) (by norm_num [pBase])
      (by norm_num [pBase, divisionSum])
      (by norm_num [pBase, climateFactorOf]) EExample_strictMono).2⟩

/-- Claim C9 witness: at `pMissing` the key "Green Areas" has no
`full_savings` entry; no error is raised and the payback is NaN. -/
theorem C9_missing_full_savings_nan_witness :
    alookup pMissing.full_savings "Green Areas" = none ∧
    performCalculations EExample pMissing = Except.ok (calcResult EExample pMissing) ∧
    (calcResult EExample pMissing).simple_payback_years = JSNum.nan :=
  ⟨rfl,
   (C9_missing_full_savings_nan EExample pMissing "Green Areas"
      (by norm_num [pMissing, pBase]) (by norm_num [pMissing, pBase])
      (by norm_num [pMissing, pBase]) (by norm_num [pMissing, pBase])
      (by norm_num [pMissing, pBase]) (by norm_num [pMissing, pBase])
      (by norm_num [pMissing, pBase, divisionSum])
      (by simp [pMissing, pBase]) rfl).1,
   (C9_missing_full_savings_nan EExample pMissing "Green Areas"
      (by norm_num [pMissing, pBase]) (by norm_num [pMissing, pBase])
      (by norm_num [pMissing, pBase]) (by norm_num [pMissing, pBase])
      (by norm_num [pMissing, pBase]) (by norm_num [pMissing, pBase])
      (by norm_num [pMissing, pBase, divisionSum])
      (by simp [pMissing, pBase]) rfl).2.2.2⟩

/-- Claim C10 witness: the unrecognized zone "mars" gets factor 1 and
the "temperate" behaviour. -/
theorem C10_unrecognized_zone_witness :
    "mars" ∉ ["temperate", "tropical", "arid", "continental", "polar"] ∧
    climateFactorOf "mars" = 1 ∧
    performCalculations EExample { pBase with climate_zone := "mars" } =
      performCalculations EExample { pBase with climate_zone := "temperate" } :=
  ⟨by decide,
   (C10_unrecognized_zone EExample pBase "mars" (by decide)).1,
   (C10_unrecognized_zone EExample pBase "mars" (by decide)).2.2⟩

theorem jmul_num (a b : ℚ) : jmul (JSNum.num a) (JSNum.num b) = JSNum.num (a * b) := rfl

theorem jsub_num (a b : ℚ) : jsub (JSNum.num a) (JSNum.num b) = JSNum.num (a - b) := by
  show JSNum.num (a + -b) = JSNum.num (a - b)
  rw [← sub_eq_add_neg]

theorem jdiv_num (a b : ℚ) (h : b ≠ 0) :
    jdiv (JSNum.num a) (JSNum.num b) = JSNum.num (a / b) := by
  simp [jdiv, h]

theorem jsub_nan_right (a : JSNum) : jsub a JSNum.nan = JSNum.nan :=
  jadd_nan_right a

theorem jsub_nan_left (b : JSNum) : jsub JSNum.nan b = JSNum.nan := by
  cases b <;> rfl

theorem jdiv_nan_left (b : JSNum) : jdiv JSNum.nan b = JSNum.nan := by
  cases b <;> rfl

theorem improveFold_bridge (climate degr points : ℚ) (sav : List (String × JSNum))
    (savQ : String → ℚ) (impYears : List (String × ℚ)) (year : ℚ)
    (hpts : points ≠ 0) :
    ∀ a : ℚ, (∀ kv ∈ impYears, jsReadN sav kv.1 = JSNum.num (savQ kv.1)) →
      impYears.foldl (fun acc kv =>
        if kv.2 ≤ year then
          jsub acc (jmul (jdiv (jmul (jsReadN sav kv.1)
            (JSNum.num (max 0 (1 - degr * (year - kv.2))))) (JSNum.num points))
            (JSNum.num climate))
        else acc) (JSNum.num a) =
      JSNum.num (impYears.foldl (fun acc kv =>
        if kv.2 ≤ year then
          acc - (savQ kv.1 * max 0 (1 - degr * (year - kv.2))) / points * climate
        else acc) a) := by
  induction impYears with
  | nil => intro a _; rfl
  | cons kv rest ih =>
    intro a hsav
    have hkv := hsav kv (List.mem_cons_self _ _)
    have hrest := fun kv2 h2 => hsav kv2 (List.mem_cons_of_mem _ h2)
    by_cases hy : kv.2 ≤ year
    · rw [List.foldl_cons, List.foldl_cons, if_pos hy, if_pos hy, hkv, jmul_num,
        jdiv_num _ _ hpts, jmul_num, jsub_num]
      exact ih _ hrest
    · rw [List.foldl_cons, List.foldl_cons, if_neg hy, if_neg hy]
      exact ih _ hrest

theorem improveStepJS_bridge (E : ℚ → ℚ) (rate climate degr points : ℚ)
    (sav : List (String × JSNum)) (savQ : String → ℚ)
    (impYears : List (String × ℚ)) (year v : ℚ) (hpts : points ≠ 0)
    (hsav : ∀ kv ∈ impYears, jsReadN sav kv.1 = JSNum.num (savQ kv.1)) :
    improveStepJS E rate climate degr points sav impYears year (JSNum.num v) =
      JSNum.num (improveStep E rate climate degr points savQ impYears year v) := by
  rw [improveStepJS, jmul_num,
    improveFold_bridge climate degr points sav savQ impYears year hpts _ hsav]
  rfl

theorem co2GoJS_bridge (stepJS : ℚ → JSNum → JSNum) (stepQ : ℚ → ℚ → ℚ)
    (hstep : ∀ y v, stepJS y (JSNum.num v) = JSNum.num (stepQ y v)) :
    ∀ (v : ℚ) (ys : List ℚ),
      co2GoJS stepJS (JSNum.num v) ys = (co2Go stepQ v ys).map JSNum.num := by
  intro v ys
  induction ys generalizing v with
  | nil => rfl
  | cons y ys ih =>
    rw [co2GoJS, co2Go, List.map_cons, hstep]
    rw [ih]

theorem co2WithImprovementsJS_bridge (E : ℚ → ℚ) (rate climate degr points : ℚ)
    (division fullSavings : List (String × ℚ)) (impYears : List (String × ℚ))
    (years : List ℚ) (initial : ℚ) (hpts : points ≠ 0)
    (hsav : ∀ kv ∈ impYears,
      jsReadN (annualSavingsJS division fullSavings) kv.1 =
        JSNum.num (annualSavingsQ division fullSavings kv.1)) :
    co2WithImprovementsJS E rate climate degr points division fullSavings impYears
        years initial =
      (co2WithImprovements E rate climate degr points
        (annualSavingsQ division fullSavings) impYears years initial).map JSNum.num := by
  cases years with
  | nil => rfl
  | cons y rest =>
    rw [co2WithImprovementsJS, co2WithImprovements, List.map_cons]
    rw [co2GoJS_bridge _ _
      (fun y v => improveStepJS_bridge E rate climate degr points _ _ impYears y v hpts hsav)]

/-- Counterexample to claim C4 as stated: `pMissing` is accepted by
`performCalculations` (its division key "Green Areas" simply has no
`full_savings` entry, which no validation check inspects), yet the
IEEE-faithful improved curve is `[initial_co2, NaN]`: the subtraction
at line 102 injects `undefined * number = NaN` and `Math.max(0, NaN)`
is NaN, so not every element satisfies `>= 0` (NaN compares false). -/
theorem C4_missing_savings_counterexample :
    performCalculations EExample pMissing = Except.ok (calcResult EExample pMissing) ∧
    co2WithImprovementsJS EExample pMissing.decline_rate
        (climateFactorOf pMissing.climate_zone) pMissing.efficiency_degradation
        (pMissing.points : ℚ) pMissing.roof_division pMissing.full_savings
        pMissing.improvement_years (linspaceQ 0 pMissing.years_to_calculate pMissing.points)
        (pMissing.GWP_roof * pMissing.roof_area) =
      [JSNum.num (pMissing.GWP_roof * pMissing.roof_area), JSNum.nan] ∧
    ¬ (∀ x ∈ co2WithImprovementsJS EExample pMissing.decline_rate
        (climateFactorOf pMissing.climate_zone) pMissing.efficiency_degradation
        (pMissing.points : ℚ) pMissing.roof_division pMissing.full_savings
        pMissing.improvement_years (linspaceQ 0 pMissing.years_to_calculate pMissing.points)
        (pMissing.GWP_roof * pMissing.roof_area), jsGe0 x = true) := by
  have hgrid : linspaceQ 0 pMissing.years_to_calculate pMissing.points = [0, 50] := by
    norm_num [pMissing, pBase, linspaceQ, List.range_succ]
  have hstep : improveStepJS EExample pMissing.decline_rate
      (climateFactorOf pMissing.climate_zone) pMissing.efficiency_degradation
      (pMissing.points : ℚ)
      (annualSavingsJS pMissing.roof_division pMissing.full_savings)
      pMissing.improvement_years 50
      (JSNum.num (pMissing.GWP_roof * pMissing.roof_area)) = JSNum.nan := by
    have hGA : jsReadN (annualSavingsJS pMissing.roof_division pMissing.full_savings)
        "Green Areas" = JSNum.nan := by
      simp [pMissing, pBase, annualSavingsJS, jsReadN, jsRead, alookup, jmul]
    rw [improveStepJS]
    have himp : pMissing.improvement_years = [("Green Areas", (0 : ℚ)), ("Solar Power", 1),
        ("Water Management", 2), ("Social Impact", 3)] := rfl
    rw [himp, List.foldl_cons, if_pos (by norm_num), hGA, jmul_nan_left, jdiv_nan_left,
      jmul_nan_left, jsub_nan_right, List.foldl_cons, if_pos (by norm_num),
      jsub_nan_left, List.foldl_cons, if_pos (by norm_num), jsub_nan_left,
      List.foldl_cons, if_pos (by norm_num), jsub_nan_left, List.foldl_nil]
    rfl
  have hcurve : co2WithImprovementsJS EExample pMissing.decline_rate
      (climateFactorOf pMissing.climate_zone) pMissing.efficiency_degradation
      (pMissing.points : ℚ) pMissing.roof_division pMissing.full_savings
      pMissing.improvement_years (linspaceQ 0 pMissing.years_to_calculate pMissing.points)
      (pMissing.GWP_roof * pMissing.roof_area) =
      [JSNum.num (pMissing.GWP_roof * pMissing.roof_area), JSNum.nan] := by
    rw [hgrid, co2WithImprovementsJS, co2GoJS, hstep, co2GoJS]
  refine ⟨performCalculations_ok _ _ (validateParams_eq_none pMissing
    (by norm_num [pMissing, pBase]) (by norm_num [pMissing, pBase])
    (by norm_num [pMissing, pBase]) (by norm_num [pMissing, pBase])
    (by norm_num [pMissing, pBase]) (by norm_num [pMissing, pBase])
    (by norm_num [pMissing, pBase, divisionSum])), hcurve, ?_⟩
  intro hall
  have hmem : JSNum.nan ∈ co2WithImprovementsJS EExample pMissing.decline_rate
      (climateFactorOf pMissing.climate_zone) pMissing.efficiency_degradation
      (pMissing.points : ℚ) pMissing.roof_division pMissing.full_savings
      pMissing.improvement_years (linspaceQ 0 pMissing.years_to_calculate pMissing.points)
      (pMissing.GWP_roof * pMissing.roof_area) := by
    rw [hcurve]
    simp
  have := hall _ hmem
  simp [jsGe0] at this

/-- Claim C4 amended: for every configuration accepted by
`performCalculations` in which every improvement category's annual
saving is defined — each key of `improvement_years` reads a numeric
`annual_savings` value, i.e. the key appears in `roof_division` with a
`full_savings` entry — every element of the IEEE-faithful
`timeline.co2_with_improvements` satisfies `>= 0`, the first element
equals `initial_co2 = GWP_roof * roof_area`, and that curve coincides
with the exact curve of the returned result; without the
defined-savings condition NaN elements occur (see the
counterexample). -/
theorem C4_co2_with_improvements_nonneg (E : ℚ → ℚ) (p : EngineParams)
    (h1 : 0 < p.roof_area) (h2 : 0 < p.GWP_roof)
    (h3 : 0 ≤ p.decline_rate) (h4 : p.decline_rate < 1)
    (h5 : 0 < p.years_to_calculate) (h6 : 0 < p.points)
    (h7 : |divisionSum p.roof_division - 100| ≤ 0.01)
    (hsav : ∀ kv ∈ p.improvement_years,
      jsReadN (annualSavingsJS p.roof_division p.full_savings) kv.1 =
        JSNum.num (annualSavingsQ p.roof_division p.full_savings kv.1)) :
    performCalculations E p = Except.ok (calcResult E p) ∧
    co2WithImprovementsJS E p.decline_rate (climateFactorOf p.climate_zone)
        p.efficiency_degradation (p.points : ℚ) p.roof_division p.full_savings
        p.improvement_years (linspaceQ 0 p.years_to_calculate p.points)
        (p.GWP_roof * p.roof_area) =
      (calcResult E p).co2_with_improvements.map JSNum.num ∧
    (∀ x ∈ co2WithImprovementsJS E p.decline_rate (climateFactorOf p.climate_zone)
        p.efficiency_degradation (p.points : ℚ) p.roof_division p.full_savings
        p.improvement_years (linspaceQ 0 p.years_to_calculate p.points)
        (p.GWP_roof * p.roof_area), jsGe0 x = true) ∧
    (co2WithImprovementsJS E p.decline_rate (climateFactorOf p.climate_zone)
        p.efficiency_degradation (p.points : ℚ) p.roof_division p.full_savings
        p.improvement_years (linspaceQ 0 p.years_to_calculate p.points)
        (p.GWP_roof * p.roof_area)).head? =
      some (JSNum.num (p.GWP_roof * p.roof_area)) := by
  have hpts : (p.points : ℚ) ≠ 0 := by
    have : (0 : ℚ) < (p.points : ℚ) := by exact_mod_cast h6
    exact ne_of_gt this
  have hbridge := co2WithImprovementsJS_bridge E p.decline_rate
    (climateFactorOf p.climate_zone) p.efficiency_degradation (p.points : ℚ)
    p.roof_division p.full_savings p.improvement_years
    (linspaceQ 0 p.years_to_calculate p.points) (p.GWP_roof * p.roof_area) hpts hsav
  obtain ⟨rest, hrest⟩ := linspaceQ_cons 0 p.years_to_calculate p.points h6
  have hcurveQ : co2WithImprovements E p.decline_rate (climateFactorOf p.climate_zone)
      p.efficiency_degradation (p.points : ℚ)
      (annualSavingsQ p.roof_division p.full_savings) p.improvement_years
      (linspaceQ 0 p.years_to_calculate p.points) (p.GWP_roof * p.roof_area) =
      p.GWP_roof * p.roof_area ::
        co2Go (improveStep E p.decline_rate (climateFactorOf p.climate_zone)
          p.efficiency_degradation (p.points : ℚ)
          (annualSavingsQ p.roof_division p.full_savings) p.improvement_years)
          (p.GWP_roof * p.roof_area) rest := by
    rw [hrest, co2WithImprovements]
  refine ⟨performCalculations_ok E p (validateParams_eq_none p h1 h2 h3 h4 h5 h6 h7),
    by rw [calcResult_co2_with]; exact hbridge, ?_, ?_⟩
  · intro x hx
    rw [hbridge] at hx
    rcases List.mem_map.1 hx with ⟨q, hq, rfl⟩
    have hq0 : 0 ≤ q := by
      rw [hcurveQ] at hq
      rcases List.mem_cons.1 hq with rfl | hq
      · exact le_of_lt (mul_pos h2 h1)
      · exact co2Go_nonneg _ (fun y v => improveStep_nonneg _ _ _ _ _ _ _ _ _) _ _ q hq
    simp [jsGe0, hq0]
  · rw [hbridge, hcurveQ, List.map_cons, List.head?_cons]

/-- Claim C4 witness: the amended floor invariant at the default
configuration, whose four improvement keys all have defined savings. -/
theorem C4_co2_with_improvements_nonneg_witness :
    (0 : ℚ) < pBase.roof_area ∧
    (∀ kv ∈ pBase.improvement_years,
      jsReadN (annualSavingsJS pBase.roof_division pBase.full_savings) kv.1 =
        JSNum.num (annualSavingsQ pBase.roof_division pBase.full_savings kv.1)) ∧
    (∀ x ∈ co2WithImprovementsJS EExample pBase.decline_rate
        (climateFactorOf pBase.climate_zone) pBase.efficiency_degradation
        (pBase.points : ℚ) pBase.roof_division pBase.full_savings
        pBase.improvement_years (linspaceQ 0 pBase.years_to_calculate pBase.points)
        (pBase.GWP_roof * pBase.roof_area), jsGe0 x = true) ∧
    (co2WithImprovementsJS EExample pBase.decline_rate
        (climateFactorOf pBase.climate_zone) pBase.efficiency_degradation
        (pBase.points : ℚ) pBase.roof_division pBase.full_savings
        pBase.improvement_years (linspaceQ 0 pBase.years_to_calculate pBase.points)
        (pBase.GWP_roof * pBase.roof_area)).head? =
      some (JSNum.num (pBase.GWP_roof * pBase.roof_area)) :=
  ⟨by norm_num [pBase],
   by
    intro kv hkv
    have hkv2 : kv ∈ [("Green Areas", (0 : ℚ)), ("Solar Power", 1),
        ("Water Management", 2), ("Social Impact", 3)] := hkv
    fin_cases hkv2 <;> rfl,
   (C4_co2_with_improvements_nonneg EExample pBase
      (by norm_num [pBase]) (by norm_num [pBase]) (by norm_num [pBase])
      (by norm_num [pBase]) (by norm_num [pBase]) (by norm_num [pBase])
      (by norm_num [pBase, divisionSum])
      (by
        intro kv hkv
        have hkv2 : kv ∈ [("Green Areas", (0 : ℚ)), ("Solar Power", 1),
            ("Water Management", 2), ("Social Impact", 3)] := hkv
        fin_cases hkv2 <;> rfl)).2.2.1,
   (C4_co2_with_improvements_nonneg EExample pBase
      (by norm_num [pBase]) (by norm_num [pBase]) (by norm_num [pBase])
      (by norm_num [pBase]) (by norm_num [pBase]) (by norm_num [pBase])
      (by norm_num [pBase, divisionSum])
      (by
        intro kv hkv
        have hkv2 : kv ∈ [("Green Areas", (0 : ℚ)), ("Solar Power", 1),
            ("Water Management", 2), ("Social Impact", 3)] := hkv
        fin_cases hkv2 <;> rfl)).2.2.2⟩
